import Mathlib

/-!
Shallow embedding of `src/main.py` (darkweid/bybit-simple-tg-bot).

The program is a single-file Telegram trading bot.  The mutable state is the
`TradingBot` instance: a single `active_position` slot (a dict or `None`) and
a single `monitor_task` handle (a task or `None`).  Prices and amounts are
modelled as rationals; Python's `round(x, 3)` is modelled as round-half-to-even
at three decimal places.  Network collaborators (the Bybit HTTP session and
Telegram) are modelled as explicit inputs to each operation:

* the order-book fetch outcome is an `Option Book` (`get_order_book` in the
  source catches every exception and returns `None` on any failure);
* an order placement outcome is an `OrderResponse` carrying `retCode` and
  `orderId` (the source treats `retCode == 0` as success, anything else as
  failure).

Effects on the gateway (how many buy/sell orders a call submits) are recorded
in the result structures, since several spec claims are about them.
-/

namespace BybitBot

/-- Static configuration loaded from the environment in `src/main.py` lines
18-24: `SYMBOL`, `TARGET_PROFIT_PERCENT`, `AMOUNT`. -/
structure Config where
  symbol : String
  target_profit_percent : ℚ
  amount : ℚ
  deriving DecidableEq

/-- The best bid / best ask pair returned by a successful
`TradingBot.get_order_book` (line 186). -/
structure Book where
  bid : ℚ
  ask : ℚ
  deriving DecidableEq

/-- The `active_position` dict built at `src/main.py` lines 73-80. -/
structure Position where
  order_id : String
  symbol : String
  entry_price : ℚ
  amount : ℚ
  target_price : ℚ
  target_amount : ℚ
  deriving DecidableEq

/-- The mutable state of the `TradingBot` instance (lines 44-45):
`active_position` holds at most one position dict, `monitor_task` records
whether a live monitoring-task handle is stored in the field. -/
structure BotState where
  active_position : Option Position
  monitor_task : Bool
  deriving DecidableEq

/-- `TradingBot.__init__` (lines 39-45): no position, no monitor task. -/
def initialState : BotState := ⟨none, false⟩

/-- The integer nearest to `q`, ties going to the even integer: the rounding
mode of Python's builtin `round`.  Written on the numerator and (positive)
denominator of `q`: `n` is the floor of `q` and `r / q.den` its fractional
part, so comparing `2 * r` against `q.den` compares the fractional part
against one half. -/
def roundHalfToEven (q : ℚ) : ℤ :=
  let n := q.num.fdiv q.den
  let r := q.num - n * q.den
  if 2 * r < (q.den : ℤ) then n
  else if (q.den : ℤ) < 2 * r then n + 1
  else if n % 2 = 0 then n else n + 1

/-- Python's `round(x, 3)`: round to three decimal places, half to even. -/
def round3 (q : ℚ) : ℚ := (roundHalfToEven (q * 1000) : ℚ) / 1000

/-- `TradingBot.calculate_target` (lines 161-171):
`round(amount * (1 + TARGET_PROFIT_PERCENT / 100), 3)`. -/
def calculate_target (cfg : Config) (amount : ℚ) : ℚ :=
  round3 (amount * (1 + cfg.target_profit_percent / 100))

/-- A `session.place_order` response as consumed by the source: `retCode`
(line 67 / 112) and `result.orderId` (line 68). -/
structure OrderResponse where
  retCode : ℤ
  orderId : String
  deriving DecidableEq

/-- Raw Bybit order-book payload shape consumed at lines 184-185:
`response.result.b` and `response.result.a` are lists of price levels, each
level a list whose first entry is a price string.  A price string that
`float()` cannot parse is abstracted as `none`. -/
structure RawOrderBook where
  b : List (List (Option ℚ))
  a : List (List (Option ℚ))
  deriving DecidableEq

/-- The `levels[0][0]` access plus `float(...)` conversion of lines 184-185:
raises `IndexError` on a missing level and `ValueError` on an unparsable
price; both are modelled as `Except.error`. -/
def firstPrice : List (List (Option ℚ)) → Except Unit ℚ
  | [] => .error ()
  | level :: _ =>
    match level with
    | [] => .error ()
    | none :: _ => .error ()
    | some p :: _ => .ok p

/-- The body of the `try` block of `TradingBot.get_order_book` (lines
182-186).  The argument is the outcome of `session.get_orderbook`: `none`
models a transport error (the call raised), `some raw` a returned payload. -/
def get_order_book_body (resp : Option RawOrderBook) : Except Unit Book :=
  match resp with
  | none => .error ()
  | some raw =>
    match firstPrice raw.b with
    | .error e => .error e
    | .ok bid =>
      match firstPrice raw.a with
      | .error e => .error e
      | .ok ask => .ok ⟨bid, ask⟩

/-- `TradingBot.get_order_book` (lines 173-189): the `except` clause catches
every exception, logs, and falls off the end of the function, returning
`None`.  Hence the result is `some book` on full success and `none` on any
failure. -/
def get_order_book (resp : Option RawOrderBook) : Option Book :=
  (get_order_book_body resp).toOption

/-- Result of one `TradingBot.open_position` call: the state after the call,
the number of market buy orders submitted to the gateway during the call, and
the returned boolean. -/
structure OpenResult where
  state : BotState
  buy_orders : ℕ
  result : Bool
  deriving DecidableEq

/-- `TradingBot.open_position` (lines 47-90).  `feed` is the result of the
`get_order_book` call at line 57 and `gw` the `place_order` response at lines
58-65.  Control flow of the source:

* line 58 submits the market buy unconditionally — before the feed result is
  inspected — so every call records one buy order;
* if `retCode ≠ 0` the `if` at line 67 falls through and the function returns
  `False` with the state untouched;
* if `retCode = 0` but the feed failed (`order_book` is `None`), line 69
  raises `AttributeError` on `None.get`, the `except` at line 88 catches it,
  and the function returns `False` with the state untouched;
* otherwise the position dict is built (entry price = the fetched ask, target
  price and amount rounded to 3 decimals, lines 69-80), a monitoring task is
  started (line 85), and the call returns `True`. -/
def open_position (cfg : Config) (s : BotState) (feed : Option Book)
    (gw : OrderResponse) : OpenResult :=
  if gw.retCode = 0 then
    match feed with
    | none => ⟨s, 1, false⟩
    | some book =>
      let entry := book.ask
      ⟨⟨some ⟨gw.orderId, cfg.symbol, entry, cfg.amount,
          round3 (entry * (1 + cfg.target_profit_percent / 100)),
          round3 (cfg.amount * (1 + cfg.target_profit_percent / 100))⟩,
        true⟩, 1, true⟩
  else ⟨s, 1, false⟩

/-- Result of one `TradingBot.close_position` call: state after the call,
number of market sell orders submitted during the call, the returned boolean,
whether the Telegram notification was sent, and the realized profit
percentage computed (when the success path was reached). -/
structure CloseResult where
  state : BotState
  sell_orders : ℕ
  result : Bool
  notified : Bool
  profit_percentage : Option ℚ
  deriving DecidableEq

/-- `TradingBot.close_position` (lines 92-132).  Control flow of the source:

* line 103 submits the market sell unconditionally — there is no check of
  `active_position` anywhere in the function — so every call records one
  sell order;
* if `retCode ≠ 0` the `if` at line 112 falls through: `False`, state kept;
* if the feed failed, line 113 raises `AttributeError` on `None.get`, caught
  at line 130: `False`, state kept;
* if `active_position` is `None`, line 114 raises `TypeError` subscripting
  `None`, caught at line 130: `False`, state kept;
* otherwise the profit percentage `(bid / entry - 1) * 100` is computed, the
  notification is sent (`send_notification` never raises), the slot is
  cleared and the monitor-task handle cancelled and dropped (lines 123-128),
  and the call returns `True`. -/
def close_position (s : BotState) (feed : Option Book)
    (gw : OrderResponse) : CloseResult :=
  if gw.retCode = 0 then
    match feed with
    | none => ⟨s, 1, false, false, none⟩
    | some book =>
      match s.active_position with
      | none => ⟨s, 1, false, false, none⟩
      | some pos =>
        ⟨⟨none, false⟩, 1, true, true,
          some ((book.bid / pos.entry_price - 1) * 100)⟩
  else ⟨s, 1, false, false, none⟩

/-- External inputs consumed by one iteration of the monitoring loop: the
monitor's own order-book fetch (line 144), and — in case the close condition
fires — the order-book fetch and gateway response of the inner
`close_position` call (lines 102-110). -/
structure MonitorInput where
  feed : Option Book
  close_feed : Option Book
  close_gw : OrderResponse
  deriving DecidableEq

/-- Result of one iteration of the monitoring loop. -/
structure MonitorStepResult where
  state : BotState
  sell_orders : ℕ
  close_invocations : ℕ
  deriving DecidableEq

/-- One iteration of the `while True` loop of `TradingBot.monitor_position`
(lines 141-159).  Control flow of the source:

* if `active_position` is `None` (line 143) the iteration does nothing;
* if the feed fetch returned `None`, line 145 raises `AttributeError` on
  `None.get`, caught at line 156 and logged: nothing happens this iteration
  (the `bid is None or ask is None` check at line 148 is unreachable, since a
  returned book always carries both prices);
* if `bid >= target_price` (line 153) the iteration awaits
  `close_position` (line 155); otherwise nothing happens. -/
def monitor_iteration (s : BotState) (inp : MonitorInput) : MonitorStepResult :=
  match s.active_position with
  | none => ⟨s, 0, 0⟩
  | some pos =>
    match inp.feed with
    | none => ⟨s, 0, 0⟩
    | some book =>
      if pos.target_price ≤ book.bid then
        let c := close_position s inp.close_feed inp.close_gw
        ⟨c.state, c.sell_orders, 1⟩
      else ⟨s, 0, 0⟩

/-- Accumulated result of running the monitoring loop over a list of
per-iteration inputs. -/
structure MonitorRunResult where
  state : BotState
  sell_orders : ℕ
  close_invocations : ℕ
  deriving DecidableEq

/-- Run the monitoring loop over a list of per-iteration inputs, accumulating
the sell orders submitted and the `close_position` invocations made. -/
def monitor_run (s : BotState) : List MonitorInput → MonitorRunResult
  | [] => ⟨s, 0, 0⟩
  | inp :: rest =>
    let r := monitor_iteration s inp
    let acc := monitor_run r.state rest
    ⟨acc.state, r.sell_orders + acc.sell_orders,
      r.close_invocations + acc.close_invocations⟩

/-- The reply sent by the `/trade` handler. -/
inductive TradeReply
  | alreadyOpen
  | opened
  | openFailed
  deriving DecidableEq

/-- Result of one `/trade` command: state after the handler, reply sent, and
the number of buy orders submitted during the handling. -/
structure TradeResult where
  state : BotState
  reply : TradeReply
  buy_orders : ℕ
  deriving DecidableEq

/-- The `/trade` handler `trade_command` (lines 246-264): if
`trading_bot.active_position` is set it answers "You already have an open
position!" and returns without calling `open_position` (lines 249-251);
otherwise it calls `open_position` and answers with a confirmation or an
error message according to the returned boolean. -/
def trade_command (cfg : Config) (s : BotState) (feed : Option Book)
    (gw : OrderResponse) : TradeResult :=
  if s.active_position.isSome then ⟨s, .alreadyOpen, 0⟩
  else
    let o := open_position cfg s feed gw
    ⟨o.state, if o.result then .opened else .openFailed, o.buy_orders⟩

/-- The reply sent by the `/status` handler: either the no-position message,
or a report carrying the symbol, entry price, current bid and the freshly
computed current profit percentage.  `unhandledError` marks the path where
the feed fetch failed: line 231 raises `AttributeError` on `None.get` and
`status_command` has no `try`, so the exception escapes the handler (the
state is still untouched). -/
inductive StatusReply
  | noPosition
  | report (symbol : String) (entry_price current_price current_profit : ℚ)
  | unhandledError
  deriving DecidableEq

/-- The `/status` handler `status_command` (lines 226-243): reads
`active_position`; when a position is present it fetches the order book and
answers with the current profit `((bid / entry_price) - 1) * 100` (line 232);
it never writes the state.  Returns the reply and the state after the
handler. -/
def status_command (s : BotState) (feed : Option Book) :
    StatusReply × BotState :=
  match s.active_position with
  | none => (.noPosition, s)
  | some pos =>
    match feed with
    | none => (.unhandledError, s)
    | some book =>
      (.report pos.symbol pos.entry_price book.bid
        ((book.bid / pos.entry_price - 1) * 100), s)

/-- The operations through which the program mutates or reads the
`trading_bot` state: the `/trade` handler, one monitoring-loop iteration, and
the `/status` handler.  (`close_position` has no handler of its own: its only
caller in the repository is the monitoring loop.) -/
inductive Op
  | trade (feed : Option Book) (gw : OrderResponse)
  | monitor (inp : MonitorInput)
  | status (feed : Option Book)

/-- State transition of one operation. -/
def step (cfg : Config) (s : BotState) : Op → BotState
  | .trade feed gw => (trade_command cfg s feed gw).state
  | .monitor inp => (monitor_iteration s inp).state
  | .status feed => (status_command s feed).2

/-- Run a sequence of operations from a state. -/
def run (cfg : Config) (s : BotState) : List Op → BotState
  | [] => s
  | op :: rest => run cfg (step cfg s op) rest

/-- Number of positions held in the active-position slot. -/
def positionCount (s : BotState) : ℕ :=
  match s.active_position with
  | none => 0
  | some _ => 1

/-- Whether an operation is a `/trade` command. -/
def Op.isTrade : Op → Bool
  | .trade _ _ => true
  | _ => false

/-- Total number of market sell orders submitted to the gateway along a run
of operations.  Sell orders arise only inside `close_position` (line 103),
whose only caller in the repository is the monitoring loop: the open path
submits only a buy (line 61, side Buy) and the status handler submits no
orders at all.  Note that no operation of the program can suspend between
reading and writing the slot: `get_order_book` has no internal await (the
pybit HTTP client is synchronous), so each handler pass and each monitor
iteration executes atomically on the event loop and a run of the program is
exactly a serialized sequence of these operations. -/
def runSells (cfg : Config) (s : BotState) : List Op → ℕ
  | [] => 0
  | op :: rest =>
    (match op with
     | .trade _ _ => 0
     | .monitor inp => (monitor_iteration s inp).sell_orders
     | .status _ => 0) + runSells cfg (step cfg s op) rest

/-!
Concrete fixtures used by the witnesses and counterexamples below.
-/

/-- Example configuration: symbol BTCUSDT, target profit 2 percent,
amount 1/2. -/
def cfgEx : Config := ⟨"BTCUSDT", 2, 1/2⟩

/-- A successful gateway acknowledgment. -/
def gwOk : OrderResponse := ⟨0, "ord1"⟩

/-- An order book with bid 101 and ask 100. -/
def bookEx : Book := ⟨101, 100⟩

/-- The position produced by opening at ask 100 with `cfgEx`. -/
def posEx : Position := ⟨"ord1", "BTCUSDT", 100, 1/2, 102, 51/100⟩

/-- A state holding `posEx` with a live monitoring task. -/
def sOpen : BotState := ⟨some posEx, true⟩

/-- A monitor-iteration input whose poll sees bid 103 (above the 102 target
of `posEx`) and whose inner close call gets a fetched book and a successful
gateway acknowledgment. -/
def inpTrig : MonitorInput := ⟨some ⟨103, 104⟩, some ⟨103, 104⟩, ⟨0, "sell2"⟩⟩

/-!
Helper lemmas.
-/

/-- An engine state with an empty slot is a fixed point of the monitoring
loop: the guard at line 143 skips every iteration, so no order book is
fetched, no close is invoked and no sell order is submitted. -/
theorem monitor_run_of_no_position (s : BotState)
    (h : s.active_position = none) :
    ∀ inputs : List MonitorInput, monitor_run s inputs = ⟨s, 0, 0⟩ := by
  intro inputs
  induction inputs with
  | nil => rfl
  | cons inp rest ih =>
    have hstep : monitor_iteration s inp = ⟨s, 0, 0⟩ := by
      simp [monitor_iteration, h]
    simp [monitor_run, hstep, ih]

/-- The success path of `close_position`: with an active position, a fetched
order book and `retCode = 0`, the call clears the slot, drops the monitor
handle, submits one sell, notifies, and returns the realized profit. -/
theorem close_position_success (s : BotState) (pos : Position) (book : Book)
    (gw : OrderResponse) (h : s.active_position = some pos)
    (hr : gw.retCode = 0) :
    close_position s (some book) gw =
      ⟨⟨none, false⟩, 1, true, true,
        some ((book.bid / pos.entry_price - 1) * 100)⟩ := by
  simp [close_position, h, hr]

/-- Every single operation preserves the link between the slot and the
monitor-task handle: `/trade` either rejects (state kept) or commits a
position together with a fresh task; a monitor iteration either leaves the
state alone or closes, clearing both; `/status` never writes. -/
theorem step_preserves_task_link (cfg : Config) (s : BotState) (op : Op)
    (h : s.active_position.isSome = s.monitor_task) :
    (step cfg s op).active_position.isSome = (step cfg s op).monitor_task := by
  cases op with
  | trade feed gw =>
    cases hs : s.active_position with
    | some pos => simpa [step, trade_command, hs] using h
    | none =>
      rw [hs] at h
      by_cases hg : gw.retCode = 0
      · cases feed with
        | none => simpa [step, trade_command, open_position, hs, hg] using h
        | some book => simp [step, trade_command, open_position, hs, hg]
      · simpa [step, trade_command, open_position, hs, hg] using h
  | monitor inp =>
    cases hs : s.active_position with
    | none => simpa [step, monitor_iteration, hs] using h
    | some pos =>
      cases hf : inp.feed with
      | none => simpa [step, monitor_iteration, hs, hf] using h
      | some book =>
        by_cases htp : pos.target_price ≤ book.bid
        · by_cases hg : inp.close_gw.retCode = 0
          · cases hb : inp.close_feed with
            | none =>
              simpa [step, monitor_iteration, close_position, hs, hf, htp,
                hg, hb] using h
            | some book2 =>
              simp [step, monitor_iteration, close_position, hs, hf, htp,
                hg, hb]
          · simpa [step, monitor_iteration, close_position, hs, hf, htp,
              hg] using h
        · simpa [step, monitor_iteration, hs, hf, htp] using h
  | status feed =>
    cases hs : s.active_position <;> cases feed <;>
      simpa [step, status_command, hs] using h

/-- The slot/monitor-task link is preserved along every run. -/
theorem run_preserves_task_link (cfg : Config) (ops : List Op) :
    ∀ s : BotState, s.active_position.isSome = s.monitor_task →
      (run cfg s ops).active_position.isSome = (run cfg s ops).monitor_task := by
  induction ops with
  | nil => intro s h; exact h
  | cons op rest ih =>
    intro s h
    simpa [run] using ih (step cfg s op) (step_preserves_task_link cfg s op h)

/-!
Claim theorems.
-/

/-- Claim C1: along every serialized run of the program's operations from
the initial state — and indeed in every engine state whatsoever, hence at
every observation point of every interleaving — the active-position slot
holds at most one Position record. -/
theorem c1_at_most_one_position :
    (∀ (cfg : Config) (ops : List Op),
        positionCount (run cfg initialState ops) ≤ 1) ∧
    (∀ s : BotState, positionCount s ≤ 1) := by
  constructor
  · intro cfg ops
    cases h : (run cfg initialState ops).active_position <;>
      simp [positionCount, h]
  · intro s
    cases h : s.active_position <;> simp [positionCount, h]

/-- Claim C2: the `/trade` entry point — the only caller of `open_position`
in the repository — rejects Open while a position is active: it sends the
"You already have an open position!" error reply, submits no buy order and
returns with the state (hence the stored Position record) unchanged; and
the open path reports success only when started from the idle state. -/
theorem c2_open_only_from_idle :
    (∀ (cfg : Config) (s : BotState) (feed : Option Book)
        (gw : OrderResponse) (pos : Position),
        s.active_position = some pos →
        trade_command cfg s feed gw = ⟨s, .alreadyOpen, 0⟩) ∧
    (∀ (cfg : Config) (s : BotState) (feed : Option Book)
        (gw : OrderResponse),
        (trade_command cfg s feed gw).reply = .opened →
        s.active_position = none) := by
  constructor
  · intro cfg s feed gw pos h
    simp [trade_command, h]
  · intro cfg s feed gw h
    cases hs : s.active_position with
    | none => rfl
    | some pos => simp [trade_command, hs] at h

/-- Claim C2 witness: with a position held, `/trade` replies with the error,
submits no order and changes nothing; and a concretely successful open
started from the idle state. -/
theorem c2_open_only_from_idle_witness :
    trade_command cfgEx sOpen (some bookEx) gwOk = ⟨sOpen, .alreadyOpen, 0⟩ ∧
    initialState.active_position = none :=
  ⟨c2_open_only_from_idle.1 cfgEx sOpen (some bookEx) gwOk posEx rfl,
   c2_open_only_from_idle.2 cfgEx initialState (some bookEx) gwOk (by decide)⟩

/-- Claim C3 (evaluation at the failing input): `close_position` invoked
with no active position — order book available, gateway acknowledging with
`retCode = 0` — returns failure and leaves the state unchanged, but submits
one market sell order first: the sell at line 103 precedes every read of the
slot, and the failure arises only from the `TypeError` raised at line 114. -/
theorem c3_close_idle_submits_sell :
    close_position initialState (some bookEx) ⟨0, "sell1"⟩ =
      ⟨initialState, 1, false, false, none⟩ := rfl

/-- Claim C4 (evaluation at the failing input): `open_position` with a
failed feed fetch (`get_order_book` returned `None`) and a gateway that
acknowledges the buy returns failure and leaves the slot empty, but submits
one market buy order: line 58 places the order before the fetched book is
inspected, and the failure arises only from the `AttributeError` raised at
line 69. -/
theorem c4_open_feed_failure_submits_buy :
    open_position cfgEx initialState none ⟨0, "ord2"⟩ =
      ⟨initialState, 1, false⟩ := rfl

/-- Claim C5: the monitoring loop closes each position at most once.  An
idle engine is a fixed point of the loop (no close, no sell, ever); over any
run of the loop whose triggered close calls get a fetched book and a
successful gateway acknowledgment, at most one sell order is submitted and
`close_position` is invoked at most once; and when the close condition fires
at some poll and that close succeeds, exactly one sell and one close
invocation occur no matter what the — arbitrarily many, arbitrarily
triggering — remaining polls observe, because the successful close clears
the slot. -/
theorem c5_monitor_closes_once :
    (∀ (s : BotState) (inputs : List MonitorInput),
        s.active_position = none → monitor_run s inputs = ⟨s, 0, 0⟩) ∧
    (∀ (s : BotState) (pos : Position) (inputs : List MonitorInput),
        s.active_position = some pos →
        (∀ inp ∈ inputs, inp.close_gw.retCode = 0 ∧ inp.close_feed.isSome) →
        (monitor_run s inputs).sell_orders ≤ 1 ∧
        (monitor_run s inputs).close_invocations ≤ 1) ∧
    (∀ (s : BotState) (pos : Position) (book book2 : Book)
        (inp : MonitorInput) (rest : List MonitorInput),
        s.active_position = some pos → inp.feed = some book →
        pos.target_price ≤ book.bid → inp.close_feed = some book2 →
        inp.close_gw.retCode = 0 →
        (monitor_run s (inp :: rest)).sell_orders = 1 ∧
        (monitor_run s (inp :: rest)).close_invocations = 1) := by
  refine ⟨fun s inputs h => monitor_run_of_no_position s h inputs, ?_, ?_⟩
  · intro s pos inputs h
    induction inputs with
    | nil => intro _; simp [monitor_run]
    | cons inp rest ih =>
      intro hg
      obtain ⟨hgw, hfeed⟩ := hg inp (List.mem_cons_self inp rest)
      have hg' : ∀ inp' ∈ rest,
          inp'.close_gw.retCode = 0 ∧ inp'.close_feed.isSome :=
        fun inp' hmem => hg inp' (List.mem_cons_of_mem inp hmem)
      cases hf : inp.feed with
      | none =>
        have hstep : monitor_iteration s inp = ⟨s, 0, 0⟩ := by
          simp [monitor_iteration, h, hf]
        simpa [monitor_run, hstep] using ih hg'
      | some book =>
        by_cases htp : pos.target_price ≤ book.bid
        · obtain ⟨book2, hb2⟩ := Option.isSome_iff_exists.mp hfeed
          have hclose := close_position_success s pos book2 inp.close_gw h hgw
          have hstep : monitor_iteration s inp = ⟨⟨none, false⟩, 1, 1⟩ := by
            simp [monitor_iteration, h, hf, htp, hb2, hclose]
          have hrest := monitor_run_of_no_position ⟨none, false⟩ rfl rest
          simp [monitor_run, hstep, hrest]
        · have hstep : monitor_iteration s inp = ⟨s, 0, 0⟩ := by
            simp [monitor_iteration, h, hf, htp]
          simpa [monitor_run, hstep] using ih hg'
  · intro s pos book book2 inp rest h hf htp hb2 hgw
    have hclose := close_position_success s pos book2 inp.close_gw h hgw
    have hstep : monitor_iteration s inp = ⟨⟨none, false⟩, 1, 1⟩ := by
      simp [monitor_iteration, h, hf, htp, hb2, hclose]
    have hrest := monitor_run_of_no_position ⟨none, false⟩ rfl rest
    simp [monitor_run, hstep, hrest]

/-- Claim C5 witness: a position with target 102, two consecutive polls both
observing bid 103: one sell, one close invocation. -/
theorem c5_monitor_closes_once_witness :
    (monitor_run sOpen [inpTrig, inpTrig]).sell_orders = 1 ∧
    (monitor_run sOpen [inpTrig, inpTrig]).close_invocations = 1 :=
  c5_monitor_closes_once.2.2 sOpen posEx ⟨103, 104⟩ ⟨103, 104⟩ inpTrig
    [inpTrig] rfl rfl (by decide) rfl rfl

/-- Claim C6: in every reachable engine state a Position is held iff the
monitor-task handle is live.  No operation can suspend between its slot
check and its slot/task write (`get_order_book` has no internal await:
the pybit HTTP calls are synchronous), so the program's executions are
exactly the serialized runs of its operations, and the link is an invariant
of every such run from the initial state.  A successful `open_position`
populates the slot together with exactly one freshly started monitoring task
(line 85), and a successful `close_position` cancels that task exactly when
it clears the slot (lines 123-128). -/
theorem c6_position_iff_monitor_task :
    (∀ (cfg : Config) (ops : List Op),
        (run cfg initialState ops).active_position.isSome =
          (run cfg initialState ops).monitor_task) ∧
    (∀ (cfg : Config) (s : BotState) (feed : Option Book)
        (gw : OrderResponse),
        (open_position cfg s feed gw).result = true →
        (open_position cfg s feed gw).state.active_position.isSome = true ∧
        (open_position cfg s feed gw).state.monitor_task = true) ∧
    (∀ (s : BotState) (feed : Option Book) (gw : OrderResponse),
        (close_position s feed gw).result = true →
        (close_position s feed gw).state = ⟨none, false⟩) := by
  refine ⟨fun cfg ops => run_preserves_task_link cfg ops initialState rfl,
    ?_, ?_⟩
  · intro cfg s feed gw h
    by_cases hg : gw.retCode = 0
    · cases feed with
      | none => simp [open_position, hg] at h
      | some book => simp [open_position, hg]
    · simp [open_position, hg] at h
  · intro s feed gw h
    by_cases hg : gw.retCode = 0
    · cases feed with
      | none => simp [close_position, hg] at h
      | some book =>
        cases hs : s.active_position with
        | none => simp [close_position, hg, hs] at h
        | some pos => simp [close_position, hg, hs]
    · simp [close_position, hg] at h

/-- Claim C6 witness: a concrete successful open stores the position with a
live monitor task, and a concrete successful close clears both. -/
theorem c6_position_iff_monitor_task_witness :
    ((open_position cfgEx initialState (some bookEx) gwOk).state.active_position.isSome = true ∧
      (open_position cfgEx initialState (some bookEx) gwOk).state.monitor_task = true) ∧
    (close_position sOpen (some bookEx) gwOk).state = ⟨none, false⟩ :=
  ⟨c6_position_iff_monitor_task.2.1 cfgEx initialState (some bookEx) gwOk rfl,
   c6_position_iff_monitor_task.2.2 sOpen (some bookEx) gwOk rfl⟩

/-- Claim C7: a successful open stores entry price = the fetched ask, target
price `round3 (entry * (1 + profitPercent / 100))` and target amount
`round3 (amount * (1 + profitPercent / 100))`; `calculate_target` computes
the same expression; `round3` always yields a multiple of 1/1000 (three
decimal places); and with entry price 100 and profit percent 2 the target
price is exactly 102. -/
theorem c7_target_arithmetic :
    (∀ (cfg : Config) (s : BotState) (book : Book) (gw : OrderResponse),
        gw.retCode = 0 →
        (open_position cfg s (some book) gw).state.active_position =
          some ⟨gw.orderId, cfg.symbol, book.ask, cfg.amount,
            round3 (book.ask * (1 + cfg.target_profit_percent / 100)),
            round3 (cfg.amount * (1 + cfg.target_profit_percent / 100))⟩) ∧
    (∀ (cfg : Config) (amount : ℚ),
        calculate_target cfg amount =
          round3 (amount * (1 + cfg.target_profit_percent / 100))) ∧
    (∀ q : ℚ, ∃ n : ℤ, round3 q = (n : ℚ) / 1000) ∧
    round3 (100 * (1 + 2 / 100)) = 102 := by
  refine ⟨?_, fun cfg amount => rfl,
    fun q => ⟨roundHalfToEven (q * 1000), rfl⟩, ?_⟩
  · intro cfg s book gw h
    simp [open_position, h]
  · have hq : (100 * (1 + 2 / 100) : ℚ) = 102 := by norm_num
    have hm : (102 : ℚ) * 1000 = 102000 := by norm_num
    have hr : roundHalfToEven (102000 : ℚ) = 102000 := by decide
    rw [hq]
    unfold round3
    rw [hm, hr]
    norm_num

/-- Claim C7 witness: opening from idle at ask 100 with profit percent 2 and
amount 1/2 stores exactly the rounded targets. -/
theorem c7_target_arithmetic_witness :
    (open_position cfgEx initialState (some bookEx) gwOk).state.active_position =
      some ⟨gwOk.orderId, cfgEx.symbol, bookEx.ask, cfgEx.amount,
        round3 (bookEx.ask * (1 + cfgEx.target_profit_percent / 100)),
        round3 (cfgEx.amount * (1 + cfgEx.target_profit_percent / 100))⟩ :=
  c7_target_arithmetic.1 cfgEx initialState bookEx gwOk rfl

/-- Claim C8: the `/status` handler never writes the state; with a position
held it reports current profit `(bid / entry - 1) * 100` from the fresh bid
and the stored entry price; `close_position` computes its realized profit by
the same formula; and with entry price 100 and current bid 101 the reported
profit is exactly 1 percent. -/
theorem c8_profit_formula :
    (∀ (s : BotState) (feed : Option Book), (status_command s feed).2 = s) ∧
    (∀ (s : BotState) (pos : Position) (book : Book),
        s.active_position = some pos →
        (status_command s (some book)).1 =
          .report pos.symbol pos.entry_price book.bid
            ((book.bid / pos.entry_price - 1) * 100)) ∧
    (∀ (s : BotState) (pos : Position) (book : Book) (gw : OrderResponse),
        s.active_position = some pos → gw.retCode = 0 →
        (close_position s (some book) gw).profit_percentage =
          some ((book.bid / pos.entry_price - 1) * 100)) ∧
    (∀ (s : BotState) (pos : Position),
        s.active_position = some pos → pos.entry_price = 100 →
        (status_command s (some ⟨101, 102⟩)).1 =
          .report pos.symbol 100 101 1) := by
  refine ⟨?_, ?_, ?_, ?_⟩
  · intro s feed
    cases h : s.active_position <;> cases feed <;> simp [status_command, h]
  · intro s pos book h
    simp [status_command, h]
  · intro s pos book gw h hr
    simp [close_position_success s pos book gw h hr]
  · intro s pos h he
    simp [status_command, h, he]
    norm_num

/-- Claim C8 witness: status on the example position (entry 100) at bid 101
reports exactly 1 percent. -/
theorem c8_profit_formula_witness :
    (status_command sOpen (some ⟨101, 102⟩)).1 =
      .report posEx.symbol 100 101 1 :=
  c8_profit_formula.2.2.2 sOpen posEx rfl rfl

/-- Claim C9: exactly one sell order reaches the gateway per position close.
The front end exposes no manual close command, so `close_position`'s only
caller is the single monitoring task, which awaits it — two Close calls are
never pending at once — and no operation suspends between its slot check and
its writes, so executions are serialized runs of the operations.  The
monitoring loop observing an idle engine is a silent no-op (the would-be
second closer: no close invocation, no sell); a triggering poll whose close
is acknowledged submits exactly one sell, succeeds and clears the slot; and
from the cleared state every continuation that opens no new position — any
mix of monitor polls and status queries — submits no further sell order. -/
theorem c9_exactly_one_sell_per_close :
    (∀ (s : BotState) (inp : MonitorInput), s.active_position = none →
        monitor_iteration s inp = ⟨s, 0, 0⟩) ∧
    (∀ (s : BotState) (pos : Position) (book book2 : Book)
        (inp : MonitorInput),
        s.active_position = some pos → inp.feed = some book →
        pos.target_price ≤ book.bid → inp.close_feed = some book2 →
        inp.close_gw.retCode = 0 →
        monitor_iteration s inp = ⟨⟨none, false⟩, 1, 1⟩) ∧
    (∀ (cfg : Config) (s : BotState) (ops : List Op),
        s.active_position = none → (∀ op ∈ ops, op.isTrade = false) →
        runSells cfg s ops = 0) := by
  refine ⟨?_, ?_, ?_⟩
  · intro s inp h
    simp [monitor_iteration, h]
  · intro s pos book book2 inp h hf htp hb2 hgw
    have hclose := close_position_success s pos book2 inp.close_gw h hgw
    simp [monitor_iteration, h, hf, htp, hb2, hclose]
  · intro cfg s ops
    induction ops generalizing s with
    | nil => intro _ _; rfl
    | cons op rest ih =>
      intro h hno
      have hno' : ∀ op' ∈ rest, op'.isTrade = false :=
        fun op' hm => hno op' (List.mem_cons_of_mem op hm)
      cases op with
      | trade feed gw =>
        have := hno _ (List.mem_cons_self _ _)
        simp [Op.isTrade] at this
      | monitor inp =>
        have hstep : monitor_iteration s inp = ⟨s, 0, 0⟩ := by
          simp [monitor_iteration, h]
        simp [runSells, step, hstep, ih s h hno']
      | status feed =>
        have hstate : (status_command s feed).2 = s := by
          simp [status_command, h]
        simp [runSells, step, hstate, ih s h hno']

/-- Claim C9 witness: the triggering poll on the example position closes
with exactly one sell, and a trade-free continuation from the cleared
engine — another poll and a status query — sells nothing. -/
theorem c9_exactly_one_sell_per_close_witness :
    monitor_iteration sOpen inpTrig = ⟨⟨none, false⟩, 1, 1⟩ ∧
    runSells cfgEx initialState
      [.monitor inpTrig, .status (some bookEx)] = 0 :=
  ⟨c9_exactly_one_sell_per_close.2.1 sOpen posEx ⟨103, 104⟩ ⟨103, 104⟩
      inpTrig rfl rfl (by decide) rfl rfl,
   c9_exactly_one_sell_per_close.2.2 cfgEx initialState
      [.monitor inpTrig, .status (some bookEx)] rfl
      (by simp [Op.isTrade])⟩

/-- Claim C10: `get_order_book` is total over every outcome of the exchange
request: a transport error yields `none`; a payload whose bid levels or ask
levels are missing or unparsable yields `none`; a well-formed payload yields
`some` of the bid/ask book; and in general the result is `none` exactly when
the body failed, `some book` exactly when it succeeded — never an escaping
exception. -/
theorem c10_get_order_book_never_raises :
    (get_order_book none = none) ∧
    (∀ (raw : RawOrderBook) (bid ask : ℚ),
        firstPrice raw.b = .ok bid → firstPrice raw.a = .ok ask →
        get_order_book (some raw) = some ⟨bid, ask⟩) ∧
    (∀ raw : RawOrderBook, firstPrice raw.b = .error () →
        get_order_book (some raw) = none) ∧
    (∀ raw : RawOrderBook, firstPrice raw.a = .error () →
        get_order_book (some raw) = none) ∧
    (∀ resp : Option RawOrderBook,
        get_order_book resp = none ∨
        ∃ book, get_order_book resp = some book ∧
          get_order_book_body resp = .ok book) := by
  refine ⟨rfl, ?_, ?_, ?_, ?_⟩
  · intro raw bid ask hb ha
    simp [get_order_book, get_order_book_body, hb, ha, Except.toOption]
  · intro raw hb
    simp [get_order_book, get_order_book_body, hb, Except.toOption]
  · intro raw ha
    cases hb : firstPrice raw.b with
    | error e =>
      simp [get_order_book, get_order_book_body, hb, Except.toOption]
    | ok bid =>
      simp [get_order_book, get_order_book_body, hb, ha, Except.toOption]
  · intro resp
    cases hb : get_order_book_body resp with
    | error e =>
      left
      simp [get_order_book, hb, Except.toOption]
    | ok book =>
      right
      exact ⟨book, by simp [get_order_book, hb, Except.toOption], rfl⟩

/-- Claim C10 witness: a well-formed payload with best bid 101 and best ask
102 yields the book. -/
theorem c10_get_order_book_never_raises_witness :
    get_order_book (some ⟨[[some 101]], [[some 102]]⟩) = some ⟨101, 102⟩ :=
  c10_get_order_book_never_raises.2.1 ⟨[[some 101]], [[some 102]]⟩ 101 102
    rfl rfl

end BybitBot
